import Mathlib

/-!
# Verification of the nexus-ai scoring engine and insight orchestrator

Shallow embedding of the Go sources of `shoumq/nexus-ai`:

* `internal/domain/analytics` (scoring engine: energy score, productivity
  model, burnout risk, trailing-window statistics);
* the `llm` package (insight orchestrator: normalization, sanitization,
  validation, truncation detection, bounded call/continue/repair loop);
* the `usecase` package (`Analyze` pipeline, `buildUserNotes`).

Modelling conventions:

* Go `string` values are modelled as lists of unicode code points
  (`GoStr := List Char`).  For valid UTF-8 data, byte-level substring /
  prefix / suffix search coincides with code-point-level search (a match
  cannot start inside a multi-byte rune because continuation bytes differ
  from every lead byte), so `strings.Contains`, `HasPrefix`, `HasSuffix`,
  `Index`, `LastIndex` and slicing after a match are modelled at the
  code-point level.  Where Go counts bytes (`len`, `Builder.Len`), the
  model counts UTF-8 bytes explicitly via `utf8Len`.
* `float64` arithmetic is modelled by real numbers; IEEE rounding is
  outside the model.
* `time.Time` is modelled as an integer day index (`ℤ`); `AddDate(0,0,-d)`
  subtracts `d`, `After` is `<` on the indices, and `Weekday()` is the day
  index mod 7 anchored so that day 0 is a Thursday (the Unix epoch).
* Unicode lowercasing (`strings.ToLower`, used by `EqualFold`) is modelled
  by the simple case mapping on the ASCII and Cyrillic ranges, which covers
  every character occurring in the program's string literals.
* External collaborators (the chat endpoint, the repository) are modelled
  as oracles: a record carries the outcome of each outbound call, and the
  embedded control flow consumes those outcomes exactly as the Go code
  consumes the corresponding return values.
-/

/-- A Go string, as a list of unicode code points. -/
abbrev GoStr := List Char

/-- `unicode.IsSpace` restricted to the Latin-1 range, which is what
`strings.TrimSpace` and the `\s` regexp class can meet in this program. -/
def isSpaceGo (c : Char) : Bool :=
  c == ' ' || c == '\t' || c == '\n' || c == '\x0b' || c == '\x0c' || c == '\r' ||
  c == '\u0085' || c == '\u00A0'

/-- `strings.TrimLeft` over whitespace. -/
def goTrimLeft (s : GoStr) : GoStr := s.dropWhile isSpaceGo

/-- Drop trailing whitespace. -/
def goTrimRight (s : GoStr) : GoStr := ((s.reverse).dropWhile isSpaceGo).reverse

/-- `strings.TrimSpace`. -/
def goTrim (s : GoStr) : GoStr := goTrimRight (goTrimLeft s)

/-- `strings.Contains`: does `pat` occur in `s` (the empty pattern always does)? -/
def containsSub : GoStr → GoStr → Bool
  | [], pat => pat.isEmpty
  | c :: rest, pat => pat.isPrefixOf (c :: rest) || containsSub rest pat

/-- `strings.HasSuffix`. -/
def goHasSuffix (s pat : GoStr) : Bool := pat.isSuffixOf s

/-- `strings.Index`: position of the leftmost occurrence of `pat` in `s`. -/
def firstIdx : GoStr → GoStr → Option Nat
  | [], pat => if pat.isEmpty then some 0 else none
  | c :: rest, pat =>
      if pat.isPrefixOf (c :: rest) then some 0
      else (firstIdx rest pat).map (· + 1)

/-- Accumulator for `lastIdx`: `i` is the position of the head of the remaining text. -/
def lastIdxAux : GoStr → GoStr → Nat → Option Nat → Option Nat
  | [], pat, i, acc => if pat.isEmpty then some i else acc
  | c :: rest, pat, i, acc =>
      lastIdxAux rest pat (i + 1) (if pat.isPrefixOf (c :: rest) then some i else acc)

/-- `strings.LastIndex`: position of the rightmost occurrence of `pat` in `s`. -/
def lastIdx (s pat : GoStr) : Option Nat := lastIdxAux s pat 0 none

/-- Fuel-driven body of `strings.ReplaceAll` (the fuel is the length of the
text, which bounds the number of scanning steps). -/
def replaceAllAux : Nat → GoStr → GoStr → GoStr → GoStr
  | 0, s, _, _ => s
  | _ + 1, [], _, _ => []
  | fuel + 1, c :: rest, pat, rep =>
      if !pat.isEmpty && pat.isPrefixOf (c :: rest) then
        rep ++ replaceAllAux fuel ((c :: rest).drop pat.length) pat rep
      else
        c :: replaceAllAux fuel rest pat rep

/-- `strings.ReplaceAll` (all patterns used by the program are non-empty). -/
def goReplaceAll (s pat rep : GoStr) : GoStr := replaceAllAux s.length s pat rep

/-- `strings.TrimPrefix`. -/
def goTrimPrefixStr (s pat : GoStr) : GoStr :=
  if pat.isPrefixOf s then s.drop pat.length else s

/-- `strings.TrimSuffix`. -/
def goTrimSuffixStr (s pat : GoStr) : GoStr :=
  if pat.isSuffixOf s then s.take (s.length - pat.length) else s

/-- Body of `strings.Split(s, "\n")`. -/
def splitNlAux : GoStr → GoStr → List GoStr
  | [], acc => [acc.reverse]
  | c :: rest, acc =>
      if c == '\n' then acc.reverse :: splitNlAux rest []
      else splitNlAux rest (c :: acc)

/-- `strings.Split(s, "\n")`. -/
def splitOnNl (s : GoStr) : List GoStr := splitNlAux s []

/-- `strings.Join(lines, "\n")`. -/
def joinNl (lines : List GoStr) : GoStr := List.intercalate ['\n'] lines

/-- Unicode simple lowercase mapping restricted to ASCII and Cyrillic
(the only cased scripts in the program's literals). -/
def toLowerCharGo (c : Char) : Char :=
  if 'A' ≤ c ∧ c ≤ 'Z' then Char.ofNat (c.toNat + 32)
  else if 'А' ≤ c ∧ c ≤ 'Я' then Char.ofNat (c.toNat + 32)
  else if c = 'Ё' then 'ё'
  else c

/-- `strings.ToLower`. -/
def toLowerGo (s : GoStr) : GoStr := s.map toLowerCharGo

/-- `strings.EqualFold` (case folding modelled by `toLowerGo`). -/
def equalFold (a b : GoStr) : Bool := toLowerGo a == toLowerGo b

/-- Size in bytes of the UTF-8 encoding of one code point. -/
def charUtf8Size (c : Char) : Nat :=
  if c.toNat < 0x80 then 1
  else if c.toNat < 0x800 then 2
  else if c.toNat < 0x10000 then 3
  else 4

/-- Byte length of the UTF-8 encoding of a string (Go `len(s)`). -/
def utf8Len (s : GoStr) : Nat := (s.map charUtf8Size).sum

/-- Model of the byte slice `s[:n]`: the longest rune prefix fitting in `n`
bytes.  (When Go cuts a rune in half the partial trailing bytes cannot be
represented at the rune level; dropping them only shrinks the byte count,
and no claim depends on them.) -/
def takeBytes : Nat → GoStr → GoStr
  | _, [] => []
  | n, c :: rest =>
      if charUtf8Size c ≤ n then c :: takeBytes (n - charUtf8Size c) rest
      else []

/-- Byte-wise ascending order on ASCII strings (Go `sort.Strings` order;
every key sorted by the program is 3-letter ASCII). -/
def goStrLe : GoStr → GoStr → Bool
  | [], _ => true
  | _ :: _, [] => false
  | a :: as, b :: bs => if a == b then goStrLe as bs else decide (a.toNat < b.toNat)

/-- Insert into a `goStrLe`-sorted list. -/
def insertSorted (x : GoStr) : List GoStr → List GoStr
  | [] => [x]
  | y :: ys => if goStrLe x y then x :: y :: ys else y :: insertSorted x ys

/-- `sort.Strings`: ascending insertion sort. -/
def sortStrings : List GoStr → List GoStr
  | [] => []
  | x :: xs => insertSorted x (sortStrings xs)

/-- `math.Round`: round half away from zero. -/
noncomputable def goRound (x : ℝ) : ℝ :=
  if x < 0 then -((Int.floor (-x + 1 / 2) : ℤ) : ℝ) else ((Int.floor (x + 1 / 2) : ℤ) : ℝ)

/-- `analytics.clamp`. -/
noncomputable def clamp (x a b : ℝ) : ℝ := if x < a then a else if b < x then b else x

/-- `analytics.clamp01`. -/
noncomputable def clamp01 (x : ℝ) : ℝ := clamp x 0 1

/-- `analytics.round2`. -/
noncomputable def round2 (x : ℝ) : ℝ := goRound (x * 100) / 100

/-- `dto.TrackPoint` (one daily sample).  `ts` is the day index of the
timestamp; the sub-day clock component plays no role in the claims. -/
structure TrackPoint where
  ts : ℤ
  sleepHours : ℝ := 0
  sleepStart : GoStr := []
  sleepEnd : GoStr := []
  mood : ℝ := 0
  activity : ℝ := 0
  productive : ℝ := 0
  stress : ℝ := 0
  energy : ℝ := 0
  concentration : ℝ := 0
  sleepQuality : ℝ := 0
  caffeine : Bool := false
  alcohol : Bool := false
  workout : Bool := false
  llmText : GoStr := []

/-- `dto.ProductivityModel`. -/
structure ProductivityModel where
  weights : List (GoStr × ℝ)
  score : ℝ

/-- `dto.BurnoutRisk`. -/
structure BurnoutRisk where
  score : ℝ
  level : GoStr
  reasons : List GoStr
  predictionHorizonDays : ℤ

/-- `dto.AIPrompt` (the fields consumed by the orchestrator and set by the
pipeline; fields absent from a Go composite literal take their zero value). -/
structure AIPrompt where
  userTZ : GoStr := []
  period : GoStr := []
  energyByWeekday : List (GoStr × ℝ) := []
  productivityScore : ℝ := 0
  burnoutScore : ℝ := 0
  burnoutLevel : GoStr := []
  burnoutReasons : List GoStr := []
  numPoints : ℤ := 0
  numObservedWeekdays : ℤ := 0
  numObservedDays : ℤ := 0
  observedWeekdaysList : GoStr := []
  userNotes : GoStr := []

/-- The latest sample's timestamp: Go indexes `pts[len(pts)-1]`, which
panics on an empty slice; every caller guarantees non-emptiness, and the
model totalizes with a default. -/
def lastTS (pts : List TrackPoint) : ℤ := (pts.getLastD { ts := 0 }).ts

/-- The samples inside the trailing `days`-day window of the latest sample
(`p.TS.After(last.AddDate(0, 0, -days))`). -/
def trailingWindow (pts : List TrackPoint) (days : ℤ) : List TrackPoint :=
  pts.filter (fun p => lastTS pts - days < p.ts)

/-- `analytics.energyScore`: local `sleepComponent`, the Gaussian sleep term. -/
noncomputable def sleepComponent (hours : ℝ) : ℝ :=
  100 * Real.exp (-(((hours - 7.75) / 2) ^ 2))

/-- `analytics.energyScore`. -/
noncomputable def energyScore (p : TrackPoint) : ℝ :=
  let sleepQuality := clamp01 (p.sleepQuality / 10) * 100
  let moodComponent := clamp01 (p.mood / 10) * 100
  let actComponent := clamp01 (p.activity / 10) * 100
  let energySelf := clamp01 (p.energy / 10) * 100
  let focusComponent := clamp01 (p.concentration / 10) * 100
  let e := 0.32 * sleepComponent p.sleepHours + 0.13 * sleepQuality +
    0.20 * moodComponent + 0.12 * actComponent + 0.18 * energySelf +
    0.05 * focusComponent
  let e := if p.caffeine then e + 2.5 else e
  let e := if p.alcohol then e - 4.0 else e
  let e := if p.workout then e + 1.5 else e
  clamp e 0 100

/-- `analytics.percentSleepInRange`. -/
noncomputable def percentSleepInRange (pts : List TrackPoint) (lo hi : ℝ) : ℝ :=
  if pts.length = 0 then 0
  else 100 * ((pts.filter (fun p => lo ≤ p.sleepHours ∧ p.sleepHours ≤ hi)).length : ℝ) /
    (pts.length : ℝ)

/-- `analytics.percentMoodAbove`. -/
noncomputable def percentMoodAbove (pts : List TrackPoint) (thr : ℝ) : ℝ :=
  if pts.length = 0 then 0
  else 100 * ((pts.filter (fun p => thr ≤ p.mood)).length : ℝ) / (pts.length : ℝ)

/-- `analytics.percentFieldAbove`. -/
noncomputable def percentFieldAbove (pts : List TrackPoint) (f : TrackPoint → ℝ) (thr : ℝ) : ℝ :=
  if pts.length = 0 then 0
  else 100 * ((pts.filter (fun p => thr ≤ f p)).length : ℝ) / (pts.length : ℝ)

/-- `analytics.percentFieldBelow`. -/
noncomputable def percentFieldBelow (pts : List TrackPoint) (f : TrackPoint → ℝ) (thr : ℝ) : ℝ :=
  if pts.length = 0 then 0
  else 100 * ((pts.filter (fun p => f p ≤ thr)).length : ℝ) / (pts.length : ℝ)

/-- `analytics.percentBool`. -/
noncomputable def percentBool (pts : List TrackPoint) (f : TrackPoint → Bool) : ℝ :=
  if pts.length = 0 then 0
  else 100 * ((pts.filter f).length : ℝ) / (pts.length : ℝ)

/-- `analytics.avgField`. -/
noncomputable def avgField (pts : List TrackPoint) (f : TrackPoint → ℝ) : ℝ :=
  if pts.length = 0 then 0 else ((pts.map f).sum) / (pts.length : ℝ)

/-- `analytics.avgSleep`: mean sleep over the trailing window (0 when the
window is empty). -/
noncomputable def avgSleep (pts : List TrackPoint) (days : ℤ) : ℝ :=
  let w := trailingWindow pts days
  if w.length = 0 then 0 else ((w.map (fun p => p.sleepHours)).sum) / (w.length : ℝ)

/-- `analytics.AvgSleepDays`. -/
noncomputable def AvgSleepDays (pts : List TrackPoint) (days : ℤ) : ℝ :=
  if pts.length = 0 ∨ days ≤ 0 then 0 else avgSleep pts days

/-- `analytics.avgSleepBetween`. -/
noncomputable def avgSleepBetween (pts : List TrackPoint) (tfrom tto : ℤ) : ℝ :=
  let w := pts.filter (fun p => tfrom < p.ts ∧ p.ts ≤ tto)
  if w.length = 0 then 0 else ((w.map (fun p => p.sleepHours)).sum) / (w.length : ℝ)

/-- `analytics.SleepDeltaDays`. -/
noncomputable def SleepDeltaDays (pts : List TrackPoint) (days : ℤ) : ℝ :=
  if pts.length = 0 ∨ days ≤ 0 then 0
  else
    let e := lastTS pts
    let cur := avgSleepBetween pts (e - days) e
    let prev := avgSleepBetween pts (e - 2 * days) (e - days)
    if cur = 0 ∨ prev = 0 then 0 else cur - prev

/-- `analytics.avgMood`. -/
noncomputable def avgMood (pts : List TrackPoint) : ℝ :=
  if pts.length = 0 then 0 else ((pts.map (fun p => p.mood)).sum) / (pts.length : ℝ)

/-- `analytics.moodTrend`: difference of the half-window mood means over the
trailing window, divided by the window length; 0 below 8 samples. -/
noncomputable def moodTrend (pts : List TrackPoint) (days : ℤ) : ℝ :=
  let arr := trailingWindow pts days
  if arr.length < 8 then 0
  else
    let n := arr.length
    (avgMood (arr.drop (n / 2)) - avgMood (arr.take (n / 2))) / (days : ℝ)

/-- `analytics.meanEnergyScore`. -/
noncomputable def meanEnergyScore (pts : List TrackPoint) : ℝ :=
  if pts.length = 0 then 0 else ((pts.map energyScore).sum) / (pts.length : ℝ)

/-- `analytics.stdEnergyScore`: population standard deviation of the energy
scores. -/
noncomputable def stdEnergyScore (pts : List TrackPoint) : ℝ :=
  if pts.length = 0 then 0
  else
    Real.sqrt (((pts.map (fun p => (energyScore p - meanEnergyScore pts) ^ 2)).sum) /
      (pts.length : ℝ))

/-- `analytics.energyVolatility`: standard deviation of the energy scores in
the trailing window; 0 below 5 samples. -/
noncomputable def energyVolatility (pts : List TrackPoint) (days : ℤ) : ℝ :=
  let vals := (trailingWindow pts days).map energyScore
  if vals.length < 5 then 0
  else
    let mean := vals.sum / (vals.length : ℝ)
    Real.sqrt (((vals.map (fun v => (v - mean) ^ 2)).sum) / (vals.length : ℝ))

/-- Go `time.Weekday()` of a day index: day 0 (the Unix epoch) is a
Thursday, and Go numbers Sunday as 0. -/
def weekdayOf (ts : ℤ) : ℤ := (ts + 4) % 7

/-- The 3-letter weekday label `d.String()[:3]`. -/
def weekdayName (d : ℤ) : GoStr :=
  (["Sun", "Mon", "Tue", "Wed", "Thu", "Fri", "Sat"].getD d.toNat "").toList

/-- `analytics.ComputeEnergyByWeekday`: mean energy score per observed
weekday (the Go map is materialized in Sunday-first key order). -/
noncomputable def ComputeEnergyByWeekday (pts : List TrackPoint) : List (GoStr × ℝ) :=
  (List.range 7).filterMap (fun d =>
    let group := pts.filter (fun p => weekdayOf p.ts = (d : ℤ))
    if group.length = 0 then none
    else some (weekdayName (d : ℤ), round2 (((group.map energyScore).sum) / (group.length : ℝ))))

/-- `analytics.ObservedWeekdaysList`: sorted keys joined by `", "`. -/
def ObservedWeekdaysList (m : List (GoStr × ℝ)) : GoStr :=
  if m.length = 0 then []
  else List.intercalate (", ".toList) (sortStrings (m.map (fun kv => kv.1)))

/-- `analytics.ComputeProductivityModel`: the static weight table. -/
def productivityWeights : List (GoStr × ℝ) :=
  [("energy_mean".toList, 0.40), ("energy_stable".toList, 0.15),
   ("sleep_ok".toList, 0.10), ("mood_ok".toList, 0.10),
   ("sleep_quality".toList, 0.08), ("focus_ok".toList, 0.07),
   ("stress_ok".toList, 0.05), ("self_energy_ok".toList, 0.05)]

/-- `analytics.ComputeProductivityModel`. -/
noncomputable def ComputeProductivityModel (pts : List TrackPoint) : ProductivityModel :=
  let meanEnergy := meanEnergyScore pts
  let stability := 100 - stdEnergyScore pts
  let sleepOK := percentSleepInRange pts 7.0 9.0
  let moodOK := percentMoodAbove pts 6.5
  let sleepQualityOK := percentFieldAbove pts (fun p => p.sleepQuality) 6.5
  let focusOK := percentFieldAbove pts (fun p => p.concentration) 6.0
  let stressOK := percentFieldBelow pts (fun p => p.stress) 5.5
  let selfEnergyOK := percentFieldAbove pts (fun p => p.energy) 6.0
  let score := 0.40 * meanEnergy + 0.15 * stability + 0.10 * sleepOK +
    0.10 * moodOK + 0.08 * sleepQualityOK + 0.07 * focusOK +
    0.05 * stressOK + 0.05 * selfEnergyOK
  { weights := productivityWeights, score := round2 (clamp score 0 100) }

/-- Burnout predicate: trailing mean sleep below 6.6 h. -/
noncomputable def sleepDebt (pts : List TrackPoint) : Prop := avgSleep pts 14 < 6.6

/-- Burnout predicate: trailing mood trend below −0.15. -/
noncomputable def moodDown (pts : List TrackPoint) : Prop := moodTrend pts 14 < -0.15

/-- Burnout predicate: trailing energy-score deviation above 18.0. -/
noncomputable def energyVolatile (pts : List TrackPoint) : Prop := 18.0 < energyVolatility pts 14

/-- Burnout predicate: productivity score below 45. -/
noncomputable def lowProd (model : ProductivityModel) : Prop := model.score < 45

/-- Burnout predicate: mean stress above 6.5. -/
noncomputable def highStress (pts : List TrackPoint) : Prop :=
  6.5 < avgField pts (fun p => p.stress)

/-- Burnout predicate: mean self-reported energy below 4.5. -/
noncomputable def lowSelfEnergy (pts : List TrackPoint) : Prop :=
  avgField pts (fun p => p.energy) < 4.5

/-- Burnout predicate: mean sleep quality below 6.0. -/
noncomputable def poorSleepQuality (pts : List TrackPoint) : Prop :=
  avgField pts (fun p => p.sleepQuality) < 6.0

/-- Burnout predicate: more than 30 % of samples flagged alcohol. -/
noncomputable def alcoholOften (pts : List TrackPoint) : Prop :=
  30 < percentBool pts (fun p => p.alcohol)

/-- Burnout predicate: fewer than 20 % of samples flagged workout. -/
noncomputable def workoutRare (pts : List TrackPoint) : Prop :=
  percentBool pts (fun p => p.workout) < 20

open Classical in
/-- The point accumulation of `ComputeBurnoutRisk` (the successive
`score +=` statements, one summand per triggered predicate). -/
noncomputable def burnoutScoreRaw (pts : List TrackPoint) (model : ProductivityModel) : ℝ :=
  (if sleepDebt pts then 25 else 0) + (if moodDown pts then 20 else 0) +
  (if energyVolatile pts then 15 else 0) + (if lowProd model then 20 else 0) +
  (if highStress pts then 20 else 0) + (if lowSelfEnergy pts then 15 else 0) +
  (if poorSleepQuality pts then 10 else 0) + (if alcoholOften pts then 10 else 0) +
  (if workoutRare pts then 5 else 0)

open Classical in
/-- The reason accumulation of `ComputeBurnoutRisk` (the successive
`reasons = append(...)` statements). -/
noncomputable def burnoutReasonsRaw (pts : List TrackPoint) (model : ProductivityModel) : List GoStr :=
  (if sleepDebt pts then ["Накопление недосыпа за последние ~2 недели".toList] else []) ++
  (if moodDown pts then ["Нисходящий тренд настроения за последние ~2 недели".toList] else []) ++
  (if energyVolatile pts then ["Высокая волатильность энергии (резкие скачки)".toList] else []) ++
  (if lowProd model then ["Низкий интегральный показатель продуктивности".toList] else []) ++
  (if highStress pts then ["Высокий уровень стресса по самооценке".toList] else []) ++
  (if lowSelfEnergy pts then ["Низкая самооценка энергии".toList] else []) ++
  (if poorSleepQuality pts then ["Низкое качество сна в среднем".toList] else []) ++
  (if alcoholOften pts then ["Частые отметки алкоголя".toList] else []) ++
  (if workoutRare pts then ["Низкая регулярность тренировок".toList] else [])

/-- The fixed reason emitted when no predicate fires. -/
def noTriggerReason : GoStr :=
  "Явных триггеров выгорания не найдено по текущим данным".toList

/-- `analytics.ComputeBurnoutRisk`. -/
noncomputable def ComputeBurnoutRisk (pts : List TrackPoint) (model : ProductivityModel) : BurnoutRisk :=
  let score := clamp (burnoutScoreRaw pts model) 0 100
  let level : GoStr :=
    if 70 ≤ score then "high".toList
    else if 40 ≤ score then "medium".toList
    else "low".toList
  let reasons := burnoutReasonsRaw pts model
  { score := round2 score
    level := level
    reasons := if reasons = [] then [noTriggerReason] else reasons
    predictionHorizonDays := 14 }

/-- `llm.cleanLLMText`: strip reasoning delimiters, code fences, leading
markup, and keep only the final answer starting at the first block header. -/
def cleanLLMText (s0 : GoStr) : GoStr :=
  let s := goTrim s0
  if s.isEmpty then s
  else
    let low := toLowerGo s
    let early : Option GoStr :=
      match lastIdx low ("</think>".toList) with
      | some i =>
          let after := goTrim (s.drop (i + 8))
          if !after.isEmpty then some after else none
      | none => none
    match early with
    | some r => r
    | none =>
        let s := goReplaceAll s ("<think>".toList) []
        let s := goReplaceAll s ("</think>".toList) []
        let s := goReplaceAll s ("<THINK>".toList) []
        let s := goReplaceAll s ("</THINK>".toList) []
        let s := goTrim s
        let s := goTrimPrefixStr s ("```".toList)
        let s := goTrimSuffixStr s ("```".toList)
        let s := goTrim s
        let s := s.dropWhile (fun c => c == '\n' || c == '\r' || c == '\t' || c == ' ')
        let s := goTrim s
        let s :=
          match firstIdx s ('\n' :: "Энергия".toList) with
          | some idx => goTrim (s.drop (idx + 1))
          | none =>
              if ("Энергия".toList).isPrefixOf s then s
              else
                match firstIdx s ("Энергия".toList) with
                | some idx => goTrim (s.drop idx)
                | none => s
        goTrim s

/-- One line of the `(?m)^\s{0,3}#{1,6}\s+` heading-marker removal. -/
def stripHeadingLine (l : GoStr) : GoStr :=
  let ws := l.takeWhile isSpaceGo
  let rest := l.drop ws.length
  let hashes := rest.takeWhile (fun c => c == '#')
  let rest2 := rest.drop hashes.length
  if ws.length ≤ 3 ∧ 1 ≤ hashes.length ∧ hashes.length ≤ 6 ∧
      rest2.length ≠ 0 ∧ isSpaceGo (rest2.headD ' ') then
    rest2.dropWhile isSpaceGo
  else l

/-- `reHeading.ReplaceAllString(s, "")`, modelled line by line (the regexp is
`(?m)`-anchored, so each line admits at most one match, at its start). -/
def stripHeadings (s : GoStr) : GoStr := joinNl ((splitOnNl s).map stripHeadingLine)

/-- One line of the `(?m)^\s*\d+\.\s+` numbered-list-marker removal. -/
def stripListNumLine (l : GoStr) : GoStr :=
  let ws := l.takeWhile isSpaceGo
  let rest := l.drop ws.length
  let digits := rest.takeWhile (fun c => c.isDigit)
  let rest2 := rest.drop digits.length
  match rest2 with
  | '.' :: rest3 =>
      if 1 ≤ digits.length ∧ rest3.length ≠ 0 ∧ isSpaceGo (rest3.headD ' ') then
        rest3.dropWhile isSpaceGo
      else l
  | _ => l

/-- `reListNum.ReplaceAllString(s, "")`, line by line. -/
def stripListNums (s : GoStr) : GoStr := joinNl ((splitOnNl s).map stripListNumLine)

/-- One line of the `(?m)^\s*[-•]\s+` dash-list-marker removal. -/
def stripListDashLine (l : GoStr) : GoStr :=
  let ws := l.takeWhile isSpaceGo
  let rest := l.drop ws.length
  match rest with
  | c :: rest2 =>
      if (c == '-' || c == '•') ∧ rest2.length ≠ 0 ∧ isSpaceGo (rest2.headD ' ') then
        rest2.dropWhile isSpaceGo
      else l
  | [] => l

/-- `reListDash.ReplaceAllString(s, "")`, line by line. -/
def stripListDashes (s : GoStr) : GoStr := joinNl ((splitOnNl s).map stripListDashLine)

/-- Scan for the closing `**` of a bold span on the same line; returns the
enclosed text and the remainder after the closing marker. -/
def findBoldClose : GoStr → Option (GoStr × GoStr)
  | [] => none
  | c :: rest =>
      if ("**".toList).isPrefixOf (c :: rest) then some ([], rest.drop 1)
      else if c == '\n' then none
      else (findBoldClose rest).map (fun ia => (c :: ia.1, ia.2))

/-- Fuel-driven `reBold.ReplaceAllString(s, "$1")`: each `**…**` span (the
lazy group cannot cross a newline) is replaced by its contents. -/
def replaceBoldAux : Nat → GoStr → GoStr
  | 0, s => s
  | _ + 1, [] => []
  | fuel + 1, c :: rest =>
      if ("**".toList).isPrefixOf (c :: rest) then
        match findBoldClose (rest.drop 1) with
        | some ia => ia.1 ++ replaceBoldAux fuel ia.2
        | none => c :: replaceBoldAux fuel rest
      else c :: replaceBoldAux fuel rest

/-- `reBold.ReplaceAllString(s, "$1")`. -/
def replaceBold (s : GoStr) : GoStr := replaceBoldAux s.length s

/-- Scan for the next backtick; returns the text before it and the remainder
after it. -/
def findTickClose : GoStr → Option (GoStr × GoStr)
  | [] => none
  | c :: rest =>
      if c == '\x60' then some ([], rest)
      else (findTickClose rest).map (fun ia => (c :: ia.1, ia.2))

/-- Fuel-driven inline-code replacement: each pair of backticks is removed,
keeping the enclosed text (the `[^...]*` class admits newlines). -/
def replaceTicksAux : Nat → GoStr → GoStr
  | 0, s => s
  | _ + 1, [] => []
  | fuel + 1, c :: rest =>
      if c == '\x60' then
        match findTickClose rest with
        | some ia => ia.1 ++ replaceTicksAux fuel ia.2
        | none => c :: replaceTicksAux fuel rest
      else c :: replaceTicksAux fuel rest

/-- `reInlineCode.ReplaceAllString(s, "$1")`. -/
def replaceTicks (s : GoStr) : GoStr := replaceTicksAux s.length s

/-- Fuel-driven `reMultiSpace.ReplaceAllString(s, " ")`: every maximal run of
two or more spaces/tabs becomes a single space. -/
def collapseMultiSpaceAux : Nat → GoStr → GoStr
  | 0, s => s
  | _ + 1, [] => []
  | fuel + 1, c :: rest =>
      if (c == ' ' || c == '\t') &&
          (match rest with
           | c2 :: _ => c2 == ' ' || c2 == '\t'
           | [] => false) then
        ' ' :: collapseMultiSpaceAux fuel (rest.dropWhile (fun x => x == ' ' || x == '\t'))
      else c :: collapseMultiSpaceAux fuel rest

/-- `reMultiSpace.ReplaceAllString(s, " ")`. -/
def collapseMultiSpace (s : GoStr) : GoStr := collapseMultiSpaceAux s.length s

/-- The blank-line-collapsing loop shared by `toPlainText` and
`sanitizeInsight`: trim each line, keep at most one consecutive empty line. -/
def collapseBlanks : List GoStr → Nat → List GoStr
  | [], _ => []
  | ln :: rest, empty =>
      let l := goTrim ln
      if l.isEmpty then
        if 1 < empty + 1 then collapseBlanks rest (empty + 1)
        else [] :: collapseBlanks rest (empty + 1)
      else l :: collapseBlanks rest 0

/-- `llm.toPlainText`. -/
def toPlainText (s0 : GoStr) : GoStr :=
  let s := cleanLLMText s0
  let s := stripHeadings s
  let s := replaceBold s
  let s := replaceTicks s
  let s := goReplaceAll s ("**".toList) []
  let s := goReplaceAll s ("__".toList) []
  let s := goReplaceAll s ("*".toList) []
  let s := goReplaceAll s ("_".toList) []
  let s := stripListNums s
  let s := stripListDashes s
  let s := goReplaceAll s ("\r\n".toList) ("\n".toList)
  let s := collapseMultiSpace s
  let s := goTrim s
  goTrim (joinNl (collapseBlanks (splitOnNl s) 0))

/-- The banned-term list of `llm.sanitizeInsight`. -/
def badTerms : List GoStr :=
  ["глюкоз", "гормон", "биоритм", "биолог", "физиолог", "в крови",
   "<think>", "</think>", "analysis", "thoughts"].map String.toList

/-- `llm.removeLinesContaining`. -/
def removeLinesContaining (s : GoStr) (needles : List GoStr) : GoStr :=
  goTrim (joinNl ((splitOnNl s).filter
    (fun ln => !(needles.any (fun n => containsSub (toLowerGo ln) n)))))

/-- The observed-day count fallback shared by `sanitizeInsight` and
`validateInsight`: `NumObservedDays`, or `NumObservedWeekdays` when 0. -/
def obsDaysOf (p : AIPrompt) : ℤ :=
  if p.numObservedDays = 0 then p.numObservedWeekdays else p.numObservedDays

/-- `llm.sanitizeInsight`. -/
def sanitizeInsight (text : GoStr) (p : AIPrompt) : GoStr :=
  let t := goTrim text
  let kept := (splitOnNl t).filterMap (fun ln =>
    if badTerms.any (fun b => containsSub (toLowerGo ln) b) then none
    else some (goTrim ln))
  let t := goTrim (joinNl kept)
  let t :=
    if 5 ≤ p.numPoints ∧ 5 ≤ obsDaysOf p then
      removeLinesContaining t ["данных мало".toList, "вывод предварител".toList]
    else t
  let t := goReplaceAll t ("\r\n".toList) ("\n".toList)
  goTrim (joinNl (collapseBlanks (splitOnNl t) 0))

/-- The three required section headers of `llm.validateInsight`. -/
def requiredHeaders : List GoStr :=
  ["Энергия", "Выгорание", "Что делать завтра"].map String.toList

/-- The fixed disclaimer sentence demanded when the risk is undetermined. -/
def disclaimerSentence : GoStr :=
  "Риск выгорания пока неизвестен из-за недостатка данных.".toList

/-- `llm.extractBlock`. -/
def extractBlock (full startTitle endTitle : GoStr) : GoStr :=
  let pat := '\n' :: (startTitle ++ ['\n'])
  let startOpt : Option Nat :=
    match firstIdx full pat with
    | some i => some (i + pat.length)
    | none => if (startTitle ++ ['\n']).isPrefixOf full then some 0 else none
  match startOpt with
  | none => []
  | some start =>
      let tailPart := full.drop start
      if (goTrim endTitle).isEmpty then goTrim tailPart
      else
        match firstIdx tailPart ('\n' :: (endTitle ++ ['\n'])) with
        | none => goTrim tailPart
        | some e => goTrim (tailPart.take e)

/-- Body of `llm.splitBySentence`: the builder is kept reversed. -/
def splitBySentenceAux : GoStr → GoStr → List GoStr
  | [], cur =>
      let last := goTrim cur.reverse
      if last.isEmpty then [] else [last]
  | c :: rest, cur =>
      if c == '.' || c == '!' || c == '?' then
        let part := goTrim (c :: cur).reverse
        (if part.isEmpty then [] else [part]) ++ splitBySentenceAux rest []
      else splitBySentenceAux rest (c :: cur)

/-- `llm.splitBySentence`. -/
def splitBySentence (s : GoStr) : List GoStr := splitBySentenceAux s []

/-- `llm.splitActions`: non-empty trimmed lines; a single paragraph is split
into sentences. -/
def splitActions (block : GoStr) : List GoStr :=
  let out := (splitOnNl block).filterMap (fun ln =>
    let l := goTrim ln
    if l.isEmpty then none else some l)
  if out.length = 1 then
    (splitBySentence (out.headD [])).filterMap (fun q =>
      let q2 := goTrim q
      if q2.isEmpty then none else some q2)
  else out

/-- The final checks of `llm.validateInsight`: banned tokens, the action
block, the user-notes marker. -/
def validateInsightTail (t : GoStr) (p : AIPrompt) : Bool :=
  let low := toLowerGo t
  if ["<think>", "</think>", "analysis", "thoughts"].map String.toList |>.any
      (fun b => containsSub low b) then false
  else
    let block := extractBlock t ("Что делать завтра".toList) []
    if (goTrim block).isEmpty then false
    else if (splitActions block).length ≠ 3 then false
    else if !(goTrim p.userNotes).isEmpty ∧ !containsSub t ("Заметки:".toList) then false
    else true

/-- The checks of `llm.validateInsight` following the disclaimer rule. -/
def validateInsightRest (t : GoStr) (p : AIPrompt) : Bool :=
  if 5 ≤ p.numPoints ∧ 5 ≤ obsDaysOf p then
    let low := toLowerGo t
    if containsSub low ("данных мало".toList) || containsSub low ("вывод предварител".toList) then
      false
    else validateInsightTail t p
  else validateInsightTail t p

/-- `llm.validateInsight`: the full structural contract. -/
def validateInsight (text : GoStr) (p : AIPrompt) : Bool :=
  let t := goTrim text
  if t.isEmpty then false
  else if !(requiredHeaders.all (fun h =>
      containsSub t ('\n' :: (h ++ ['\n'])) || (h ++ ['\n']).isPrefixOf t)) then false
  else if (p.burnoutLevel = "unknown".toList ∨ p.burnoutLevel = "недостаточно данных".toList) then
    if !containsSub t disclaimerSentence then false
    else validateInsightRest t p
  else if containsSub t disclaimerSentence then false
  else validateInsightRest t p

/-- `llm.isTruncated`: length-cutoff finish indicator, or a trimmed text
ending in a colon, hyphen or en dash (`last[len(last)-1]` is a byte index,
so the final redundant branch compares the last code point with a colon). -/
def isTruncated (finishReason text : GoStr) : Bool :=
  if equalFold finishReason ("length".toList) then true
  else if text.isEmpty then false
  else
    let last := goTrim text
    if goHasSuffix last [':'] || goHasSuffix last ['-'] || goHasSuffix last ['–'] then true
    else if 2 ≤ utf8Len last ∧ last.getLast? = some ':' then true
    else false

/-- The outcome of one `aiChatOnce` call: a transport/decoding error, or the
already-trimmed text and finish indicator of the first choice. -/
abbrev ChatOutcome := Except GoStr (GoStr × GoStr)

/-- The error message for empty cleaned content. -/
def emptyContentErr : GoStr := "ai empty content after cleaning".toList

/-- The final `CallInsight` return: the accumulated text, or an explicit
error when it is empty after trimming. -/
def callInsightFallback (t : GoStr) : Except GoStr GoStr :=
  if (goTrim t).isEmpty then Except.error emptyContentErr else Except.ok t

/-- The continuation step of `CallInsight`: when the first response is
truncated, a second call is attempted; its sanitized text is merged by
newline concatenation when the merge is non-empty, and a transport error on
this call is ignored. -/
def mergeContinuation (p : AIPrompt) (text1 finish1 : GoStr) (o2 : ChatOutcome) : GoStr :=
  if isTruncated finish1 text1 then
    match o2 with
    | Except.error _ => text1
    | Except.ok r2 =>
        let text2 := sanitizeInsight (toPlainText r2.1) p
        let merged := goTrim (text1 ++ '\n' :: text2)
        if !merged.isEmpty then merged else text1
  else text1

/-- The repair step of `CallInsight`: when the accumulated text fails
validation, a third call is attempted; its sanitized text is returned only
if it independently validates, and otherwise (also on a transport error of
the repair call) the accumulated text is returned best-effort. -/
def repairStage (p : AIPrompt) (text1 : GoStr) (o3 : ChatOutcome) : Except GoStr GoStr :=
  if validateInsight text1 p then callInsightFallback text1
  else
    match o3 with
    | Except.error _ => callInsightFallback text1
    | Except.ok r3 =>
        let fixed := sanitizeInsight (toPlainText r3.1) p
        if validateInsight fixed p then Except.ok fixed
        else callInsightFallback text1

/-- `llm.CallInsight`: the bounded first/continuation/repair state machine.
The external chat endpoint is modelled as an oracle giving the outcome of
each successive call (`o1`, `o2`, `o3`); the prompt strings sent to it do
not influence the oracle and are omitted.  `fast` is the client's fast-mode
flag, which skips continuation and repair. -/
def CallInsight (fast : Bool) (p : AIPrompt) (o1 o2 o3 : ChatOutcome) : Except GoStr GoStr :=
  match o1 with
  | Except.error e => Except.error e
  | Except.ok r1 =>
      let text1 := sanitizeInsight (toPlainText r1.1) p
      if fast then callInsightFallback text1
      else repairStage p (mergeContinuation p text1 r1.2 o2) o3

/-- The `p.TS.Format("2006-01-02 15:04")` timestamp rendering.  The calendar
decomposition of the instant is abstracted: the model renders the decimal
day index; no claim depends on the rendered characters, only on the
byte-accounting done by `buildUserNotes` over whatever the rendering is. -/
def tsFormat (ts : ℤ) : GoStr := (toString ts).toList

/-- The rendered digest line for one sample: timestamp, em-dash separator
and trimmed note, preceded by a newline when the builder is non-empty. -/
def noteLine (p : TrackPoint) (b : GoStr) : GoStr :=
  let line0 := tsFormat p.ts ++ (" — ".toList) ++ goTrim p.llmText
  if 0 < utf8Len b then '\n' :: line0 else line0

/-- Loop body of `usecase.buildUserNotes`; `b` is the accumulated builder
content. -/
def buildUserNotesLoop (maxLen : ℤ) : List TrackPoint → GoStr → GoStr
  | [], b => b
  | p :: rest, b =>
      if (goTrim p.llmText).isEmpty then buildUserNotesLoop maxLen rest b
      else
        if maxLen < (utf8Len b : ℤ) + (utf8Len (noteLine p b) : ℤ) then
          if 0 < maxLen - (utf8Len b : ℤ) then
            b ++ takeBytes (maxLen - (utf8Len b : ℤ)).toNat (noteLine p b)
          else b
        else buildUserNotesLoop maxLen rest (b ++ noteLine p b)

/-- `usecase.buildUserNotes`: the free-text note digest, capped at `maxLen`
bytes. -/
def buildUserNotes (pts : List TrackPoint) (maxLen : ℤ) : GoStr :=
  if pts.length = 0 ∨ maxLen ≤ 0 then [] else buildUserNotesLoop maxLen pts []

/-- `dto.AnalyzeRequest` (the fields the embedded pipeline reads). -/
structure AnalyzeRequest where
  userID : ℤ
  userTZ : GoStr := []
  period : GoStr := []

/-- `dto.OptimalSchedule` (always its zero value in this pipeline). -/
structure OptimalSchedule where
  suggestedSleepWindow : GoStr := []
  bestFocusHours : List GoStr := []
  bestLightTasksHours : List GoStr := []
  recoveryTips : List GoStr := []

/-- `dto.AnalyzeResponse`.  `debug` is the debug map, materialized as a list
of present entries. -/
structure AnalyzeResponse where
  energyByWeekday : List (GoStr × ℝ)
  productivityModel : ProductivityModel
  burnoutRisk : BurnoutRisk
  optimalSchedule : OptimalSchedule
  llmInsight : GoStr
  debug : List (GoStr × ℝ)

/-- The collaborators of `usecase.Analyzer`, modelled as oracles: whether the
repository and the LLM client are configured, the outcome of the cache
lookup when it is consulted (`none` covers a miss and a lookup error; the
cache key is a content hash whose construction cannot fail), the outcome of
`GetTrackPoints`, and the outcome of `CallInsight` for the prompt built by
the pipeline.  Storage writes (`storeResult`) have no observable effect on
the returned value and are not modelled. -/
structure AnalyzerDeps where
  repoConfigured : Bool
  llmConfigured : Bool
  cached : Option AnalyzeResponse
  trackPoints : Except GoStr (List TrackPoint)
  llmResult : AIPrompt → Except GoStr GoStr

/-- The `BurnoutRisk` forced when fewer than 5 samples are available. -/
def insufficientDataRisk : BurnoutRisk :=
  { score := 0
    level := "недостаточно данных".toList
    reasons := ["Недостаточно данных для прогноза выгорания (нужно хотя бы 5 точек).".toList]
    predictionHorizonDays := 14 }

/-- The risk selection of `usecase.Analyze`: the rule-based evaluation runs
only at 5 samples or more. -/
noncomputable def riskForPoints (pts : List TrackPoint) (model : ProductivityModel) : BurnoutRisk :=
  if 5 ≤ pts.length then ComputeBurnoutRisk pts model else insufficientDataRisk

/-- `usecase.Analyze` (the current variant of `internal/usecase/analyze.go`).
Timezone loading only affects rendering and is outside the model; timestamps
are already instants. -/
noncomputable def Analyze (a : AnalyzerDeps) (req : AnalyzeRequest) : Except GoStr AnalyzeResponse :=
  if req.userID ≤ 0 then Except.error ("user id is required".toList)
  else
    match (if a.repoConfigured && !a.llmConfigured then a.cached else none) with
    | some resp => Except.ok resp
    | none =>
        if !a.repoConfigured then Except.error ("repository not configured".toList)
        else
          match a.trackPoints with
          | Except.error e => Except.error e
          | Except.ok pts =>
              if pts.length < 2 then
                Except.error ("need at least 2 points for stable analytics".toList)
              else
                let energyByWeekday := ComputeEnergyByWeekday pts
                let model := ComputeProductivityModel pts
                let risk := riskForPoints pts model
                let obsDays := ObservedWeekdaysList energyByWeekday
                let userNotes := buildUserNotes pts 1200
                let llmText :=
                  if a.llmConfigured then
                    match a.llmResult
                        { userTZ := req.userTZ
                          energyByWeekday := energyByWeekday
                          productivityScore := model.score
                          burnoutScore := risk.score
                          burnoutLevel := risk.level
                          burnoutReasons := risk.reasons
                          numPoints := (pts.length : ℤ)
                          numObservedWeekdays := (energyByWeekday.length : ℤ)
                          observedWeekdaysList := obsDays
                          userNotes := userNotes } with
                    | Except.ok t => t
                    | Except.error e => ("LLM insight unavailable: ".toList) ++ e
                  else "LLM disabled".toList
                let debug :=
                  (if 0 < AvgSleepDays pts 14 then
                    [("avg_sleep_hours".toList, AvgSleepDays pts 14)] else []) ++
                  (if SleepDeltaDays pts 7 ≠ 0 then
                    [("avg_sleep_delta".toList, SleepDeltaDays pts 7)] else [])
                Except.ok
                  { energyByWeekday := energyByWeekday
                    productivityModel := model
                    burnoutRisk := risk
                    optimalSchedule := {}
                    llmInsight := llmText
                    debug := debug }

/-! ### Concrete inputs used by witnesses and counterexamples -/

/-- A healthy daily sample. -/
def samplePoint : TrackPoint :=
  { ts := 0, sleepHours := 8, mood := 7, activity := 7, productive := 7,
    stress := 3, energy := 7, concentration := 7, sleepQuality := 8,
    workout := true }

/-- Five identical healthy samples. -/
def fivePoints : List TrackPoint := List.replicate 5 samplePoint

/-- Three identical healthy samples (below the burnout minimum). -/
def threePoints : List TrackPoint := List.replicate 3 samplePoint

/-- A productivity model with a mid-range score. -/
def modelMid : ProductivityModel := { weights := productivityWeights, score := 50 }

/-- A structurally valid narrative: all three headers on their own lines,
three action lines, no disclaimer, no notes marker. -/
def insightTextValid : GoStr :=
  ("Энергия\nСредний уровень стабилен.\n\nВыгорание\nУровень низкий.\n\n" ++
   "Что делать завтра\nСделай зарядку утром.\nВыпей воды днём.\nЛяг спать пораньше.").toList

/-- A prompt context with a determinate risk level and no user notes. -/
def promptDeterminate : AIPrompt := { burnoutLevel := "low".toList }

/-- The same context but with a non-empty user note. -/
def promptWithNotes : AIPrompt :=
  { burnoutLevel := "low".toList, userNotes := "устал на работе".toList }

/-- A short well-terminated model reply that fails validation. -/
def rawPlain : GoStr := "Привет.".toList

/-- Pipeline collaborators delivering exactly one stored sample. -/
noncomputable def depsOnePoint : AnalyzerDeps :=
  { repoConfigured := true, llmConfigured := true, cached := none,
    trackPoints := Except.ok [samplePoint], llmResult := fun _ => Except.ok [] }

/-- Pipeline collaborators delivering three stored samples. -/
noncomputable def depsThreePoints : AnalyzerDeps :=
  { repoConfigured := true, llmConfigured := true, cached := none,
    trackPoints := Except.ok threePoints, llmResult := fun _ => Except.ok [] }

/-- A request with a valid user id. -/
def reqValid : AnalyzeRequest := { userID := 1 }

/-- A sample with a note, for the digest witness. -/
def notePoint : TrackPoint := { ts := 0, llmText := "заметка".toList }

/-! ### Helper lemmas -/

theorem floor_int_add_half (j : ℤ) : ⌊((j : ℝ)) + 1 / 2⌋ = j := by
  rw [add_comm, Int.floor_add_int]
  norm_num

theorem goRound_intCast (j : ℤ) : goRound ((j : ℝ)) = (j : ℝ) := by
  unfold goRound
  by_cases h : ((j : ℝ)) < 0
  · rw [if_pos h, show -((j : ℝ)) = (((-j : ℤ)) : ℝ) by push_cast; ring,
      floor_int_add_half]
    push_cast
    ring
  · rw [if_neg h, floor_int_add_half]

theorem round2_intCast (j : ℤ) : round2 ((j : ℝ)) = (j : ℝ) := by
  unfold round2
  rw [show ((j : ℝ)) * 100 = (((100 * j : ℤ)) : ℝ) by push_cast; ring, goRound_intCast]
  push_cast
  ring

theorem clamp_int_exists (j : ℤ) : ∃ m : ℤ, clamp ((j : ℝ)) 0 100 = ((m : ℝ)) := by
  unfold clamp
  by_cases h1 : ((j : ℝ)) < 0
  · exact ⟨0, by rw [if_pos h1]; norm_num⟩
  · by_cases h2 : (100 : ℝ) < ((j : ℝ))
    · exact ⟨100, by rw [if_neg h1, if_pos h2]; norm_num⟩
    · exact ⟨j, by rw [if_neg h1, if_neg h2]⟩

theorem clamp_le_clamp {x y a b : ℝ} (hab : a ≤ b) (h : x ≤ y) :
    clamp x a b ≤ clamp y a b := by
  unfold clamp
  split_ifs <;> linarith

theorem clamp_mem {x a b : ℝ} (hab : a ≤ b) : a ≤ clamp x a b ∧ clamp x a b ≤ b := by
  unfold clamp
  split_ifs <;> constructor <;> linarith

theorem ite_nonneg_le {P Q : Prop} [Decidable P] [Decidable Q] {c : ℝ}
    (hc : 0 ≤ c) (h : P → Q) : (if P then c else 0) ≤ (if Q then c else 0) := by
  split_ifs with hP hQ
  · exact le_refl c
  · exact absurd (h hP) hQ
  · exact hc
  · exact le_refl 0

theorem burnoutScoreRaw_int (pts : List TrackPoint) (model : ProductivityModel) :
    ∃ n : ℤ, burnoutScoreRaw pts model = ((n : ℝ)) := by
  classical
  refine ⟨(if sleepDebt pts then 25 else 0) + (if moodDown pts then 20 else 0) +
    (if energyVolatile pts then 15 else 0) + (if lowProd model then 20 else 0) +
    (if highStress pts then 20 else 0) + (if lowSelfEnergy pts then 15 else 0) +
    (if poorSleepQuality pts then 10 else 0) + (if alcoholOften pts then 10 else 0) +
    (if workoutRare pts then 5 else 0), ?_⟩
  unfold burnoutScoreRaw
  push_cast [apply_ite ((fun z => (z : ℝ)) : ℤ → ℝ)]
  norm_num

theorem ComputeBurnoutRisk_score_eq (pts : List TrackPoint) (model : ProductivityModel) :
    (ComputeBurnoutRisk pts model).score = clamp (burnoutScoreRaw pts model) 0 100 := by
  obtain ⟨n, hn⟩ := burnoutScoreRaw_int pts model
  have h1 : (ComputeBurnoutRisk pts model).score =
      round2 (clamp (burnoutScoreRaw pts model) 0 100) := rfl
  obtain ⟨m, hm⟩ := clamp_int_exists n
  rw [h1, hn, hm, round2_intCast]

theorem goHasSuffix_singleton (s : GoStr) (c : Char) :
    goHasSuffix s [c] = true ↔ s.getLast? = some c := by
  have h1 : goHasSuffix s [c] = ([c] : GoStr).isSuffixOf s := rfl
  rw [h1, List.isSuffixOf_iff_suffix, List.getLast?_eq_some_iff]
  constructor
  · rintro ⟨t, ht⟩
    exact ⟨t, ht.symm⟩
  · rintro ⟨t, ht⟩
    exact ⟨t, ht.symm⟩

theorem validateInsight_of_trim_empty (t : GoStr) (p : AIPrompt)
    (h : goTrim t = []) : validateInsight t p = false := by
  unfold validateInsight
  rw [h]
  rfl

theorem goHasSuffix_false_of_getLast (s : GoStr) (c d : Char) (hne : c ≠ d)
    (h : s.getLast? = some c) : goHasSuffix s [d] = false := by
  cases hd : goHasSuffix s [d]
  · rfl
  · have := (goHasSuffix_singleton s d).mp hd
    rw [h] at this
    exact absurd (Option.some.inj this) hne

/-- C5: a response is classified truncated exactly when the finish indicator
folds to the length-cutoff value or the trimmed text ends with a colon,
hyphen or en dash; consequently a text ending in a terminal period is not
truncated under a non-length finish indicator, and neither is an empty text. -/
theorem isTruncated_spec :
    (∀ fr t : GoStr, isTruncated fr t =
      (equalFold fr ("length".toList) || goHasSuffix (goTrim t) [':'] ||
       goHasSuffix (goTrim t) ['-'] || goHasSuffix (goTrim t) ['–'])) ∧
    (∀ fr t : GoStr, equalFold fr ("length".toList) = false →
      goHasSuffix (goTrim t) ['.'] = true → isTruncated fr t = false) ∧
    (∀ fr : GoStr, equalFold fr ("length".toList) = false → isTruncated fr [] = false) := by
  have main : ∀ fr t : GoStr, isTruncated fr t =
      (equalFold fr ("length".toList) || goHasSuffix (goTrim t) [':'] ||
       goHasSuffix (goTrim t) ['-'] || goHasSuffix (goTrim t) ['–']) := by
    intro fr t
    unfold isTruncated
    cases hf : equalFold fr ("length".toList)
    · cases hE : t.isEmpty
      · cases h1 : goHasSuffix (goTrim t) [':']
        · cases h2 : goHasSuffix (goTrim t) ['-']
          · cases h3 : goHasSuffix (goTrim t) ['–']
            · have hcond : ¬(2 ≤ utf8Len (goTrim t) ∧ (goTrim t).getLast? = some ':') := by
                rintro ⟨-, hlast⟩
                rw [(goHasSuffix_singleton (goTrim t) ':').mpr hlast] at h1
                exact Bool.true_eq_false.mp h1
              simp [hE, h1, h2, h3, hcond]
            · simp [hE, h1, h2, h3]
          · simp [hE, h1, h2]
        · simp [hE, h1]
      · have ht : t = [] := List.isEmpty_iff.mp hE
        subst ht
        simp
        decide
    · simp
  refine ⟨main, ?_, ?_⟩
  · intro fr t hf hdot
    rw [main fr t, hf]
    have hlast := (goHasSuffix_singleton (goTrim t) '.').mp hdot
    rw [goHasSuffix_false_of_getLast (goTrim t) '.' ':' (by decide) hlast,
      goHasSuffix_false_of_getLast (goTrim t) '.' '-' (by decide) hlast,
      goHasSuffix_false_of_getLast (goTrim t) '.' '–' (by decide) hlast]
    rfl
  · intro fr hf
    rw [main fr [], hf]
    rfl

/-- Witness for C5 at concrete inputs: a finish indicator `stop` with a
period-terminated text is not truncated, the empty text is not truncated,
and a text ending in a colon is truncated. -/
theorem isTruncated_spec_witness :
    isTruncated ("stop".toList) ("Готово.".toList) = false ∧
    isTruncated ("stop".toList) [] = false ∧
    isTruncated ("stop".toList) ("Список:".toList) = true := by
  refine ⟨?_, ?_, ?_⟩
  · exact isTruncated_spec.2.1 ("stop".toList) ("Готово.".toList) (by decide) (by decide)
  · exact isTruncated_spec.2.2 ("stop".toList) (by decide)
  · rw [isTruncated_spec.1 ("stop".toList) ("Список:".toList)]
    decide

/-- C8: below the minimum window population (8 samples for the mood trend,
5 for the energy volatility) both statistics return the neutral value 0;
in the model both functions are total, so no division by zero or other
failure can occur. -/
theorem smallWindow_neutral (pts : List TrackPoint) (days : ℤ) (_hne : pts ≠ []) :
    ((trailingWindow pts days).length < 8 → moodTrend pts days = 0) ∧
    ((trailingWindow pts days).length < 5 → energyVolatility pts days = 0) := by
  constructor
  · intro h
    unfold moodTrend
    rw [if_pos h]
  · intro h
    unfold energyVolatility
    rw [if_pos (by simpa using h)]

/-- Witness for C8: a single sample leaves one element in the trailing
window, so both statistics are 0. -/
theorem smallWindow_neutral_witness :
    moodTrend [samplePoint] 14 = 0 ∧ energyVolatility [samplePoint] 14 = 0 := by
  have h := smallWindow_neutral [samplePoint] 14 (by simp)
  exact ⟨h.1 (by decide), h.2 (by decide)⟩

/-- C2: the energy score is the clamped weighted blend of the Gaussian
sleep term and the five scaled self-reports plus the three discrete flag
adjustments; it always lies in [0, 100]; the weights sum to 1; and the
sleep term attains its maximum 100 exactly at 7.75 hours. -/
theorem energyScore_spec (p : TrackPoint) :
    energyScore p = clamp
      (0.32 * sleepComponent p.sleepHours +
       0.13 * (clamp01 (p.sleepQuality / 10) * 100) +
       0.20 * (clamp01 (p.mood / 10) * 100) +
       0.12 * (clamp01 (p.activity / 10) * 100) +
       0.18 * (clamp01 (p.energy / 10) * 100) +
       0.05 * (clamp01 (p.concentration / 10) * 100) +
       (if p.caffeine then 2.5 else 0) + (if p.alcohol then -4.0 else 0) +
       (if p.workout then 1.5 else 0)) 0 100 ∧
    0 ≤ energyScore p ∧ energyScore p ≤ 100 ∧
    (0.32 + 0.13 + 0.20 + 0.12 + 0.18 + 0.05 : ℝ) = 1 ∧
    sleepComponent 7.75 = 100 ∧
    (∀ h : ℝ, sleepComponent h ≤ 100 ∧ (sleepComponent h = 100 ↔ h = 7.75)) := by
  have hmax : sleepComponent 7.75 = 100 := by
    unfold sleepComponent
    norm_num [Real.exp_zero]
  refine ⟨?_, ?_, ?_, by norm_num, hmax, ?_⟩
  · unfold energyScore
    by_cases h1 : p.caffeine <;> by_cases h2 : p.alcohol <;> by_cases h3 : p.workout <;>
      simp only [h1, h2, h3, if_true, if_false, Bool.false_eq_true] <;>
      (try (congr 1; ring)) <;> (try rfl)
  · exact (clamp_mem (by norm_num : (0:ℝ) ≤ 100)).1
  · exact (clamp_mem (by norm_num : (0:ℝ) ≤ 100)).2
  · intro h
    have harg : -(((h - 7.75) / 2) ^ 2) ≤ 0 := neg_nonpos.mpr (sq_nonneg _)
    constructor
    · unfold sleepComponent
      have := Real.exp_le_one_iff.mpr harg
      nlinarith [this]
    · unfold sleepComponent
      constructor
      · intro hval
        have hexp : Real.exp (-(((h - 7.75) / 2) ^ 2)) = 1 := by linarith
        have hzero : -(((h - 7.75) / 2) ^ 2) = 0 := (Real.exp_eq_one_iff _).mp hexp
        have hsq : ((h - 7.75) / 2) ^ 2 = 0 := by linarith
        have hdiv : (h - 7.75) / 2 = 0 := by
          exact sq_eq_zero_iff.mp hsq
        linarith [hdiv]
      · intro hval
        subst hval
        exact hmax

/-- C6: with at least 5 samples, the burnout score is the sum of the fixed
point values of the triggered predicates clamped to [0, 100] (the final
2-decimal rounding is the identity on these integer values); the level
bands are low below 40, medium in [40, 70), high at and above 70; and when
no predicate fires the reasons list is exactly the single fixed
no-clear-trigger reason. -/
theorem burnoutRisk_spec (pts : List TrackPoint) (model : ProductivityModel)
    (_h5 : 5 ≤ pts.length) :
    (ComputeBurnoutRisk pts model).score = clamp (burnoutScoreRaw pts model) 0 100 ∧
    ((ComputeBurnoutRisk pts model).score < 40 →
      (ComputeBurnoutRisk pts model).level = "low".toList) ∧
    (40 ≤ (ComputeBurnoutRisk pts model).score → (ComputeBurnoutRisk pts model).score < 70 →
      (ComputeBurnoutRisk pts model).level = "medium".toList) ∧
    (70 ≤ (ComputeBurnoutRisk pts model).score →
      (ComputeBurnoutRisk pts model).level = "high".toList) ∧
    (burnoutReasonsRaw pts model = [] →
      (ComputeBurnoutRisk pts model).reasons = [noTriggerReason]) := by
  classical
  have hsc := ComputeBurnoutRisk_score_eq pts model
  have hlv : (ComputeBurnoutRisk pts model).level =
      (if 70 ≤ clamp (burnoutScoreRaw pts model) 0 100 then "high".toList
       else if 40 ≤ clamp (burnoutScoreRaw pts model) 0 100 then "medium".toList
       else "low".toList) := rfl
  have hrs : (ComputeBurnoutRisk pts model).reasons =
      (if burnoutReasonsRaw pts model = [] then [noTriggerReason]
       else burnoutReasonsRaw pts model) := rfl
  refine ⟨hsc, ?_, ?_, ?_, ?_⟩
  · intro hlt
    rw [hsc] at hlt
    rw [hlv, if_neg (by linarith), if_neg (by linarith)]
  · intro hge hlt
    rw [hsc] at hge hlt
    rw [hlv, if_neg (by linarith), if_pos hge]
  · intro hge
    rw [hsc] at hge
    rw [hlv, if_pos hge]
  · intro hz
    rw [hrs, if_pos hz]

/-- Witness for C6: five identical healthy samples with a mid-range model. -/
theorem burnoutRisk_spec_witness :
    (ComputeBurnoutRisk fivePoints modelMid).score =
      clamp (burnoutScoreRaw fivePoints modelMid) 0 100 ∧
    ((ComputeBurnoutRisk fivePoints modelMid).score < 40 →
      (ComputeBurnoutRisk fivePoints modelMid).level = "low".toList) ∧
    (40 ≤ (ComputeBurnoutRisk fivePoints modelMid).score →
      (ComputeBurnoutRisk fivePoints modelMid).score < 70 →
      (ComputeBurnoutRisk fivePoints modelMid).level = "medium".toList) ∧
    (70 ≤ (ComputeBurnoutRisk fivePoints modelMid).score →
      (ComputeBurnoutRisk fivePoints modelMid).level = "high".toList) ∧
    (burnoutReasonsRaw fivePoints modelMid = [] →
      (ComputeBurnoutRisk fivePoints modelMid).reasons = [noTriggerReason]) :=
  burnoutRisk_spec fivePoints modelMid (by decide)

/-- C7: the burnout score is monotone in the predicate outcomes: whenever
every predicate satisfied by the first input is satisfied by the second,
the second score is at least the first (this covers adding one predicate
while holding the others fixed). -/
theorem burnoutScore_monotone (pts1 pts2 : List TrackPoint)
    (model1 model2 : ProductivityModel)
    (h1 : sleepDebt pts1 → sleepDebt pts2) (h2 : moodDown pts1 → moodDown pts2)
    (h3 : energyVolatile pts1 → energyVolatile pts2) (h4 : lowProd model1 → lowProd model2)
    (h5 : highStress pts1 → highStress pts2) (h6 : lowSelfEnergy pts1 → lowSelfEnergy pts2)
    (h7 : poorSleepQuality pts1 → poorSleepQuality pts2)
    (h8 : alcoholOften pts1 → alcoholOften pts2) (h9 : workoutRare pts1 → workoutRare pts2) :
    (ComputeBurnoutRisk pts1 model1).score ≤ (ComputeBurnoutRisk pts2 model2).score := by
  classical
  rw [ComputeBurnoutRisk_score_eq, ComputeBurnoutRisk_score_eq]
  apply clamp_le_clamp (by norm_num : (0:ℝ) ≤ 100)
  unfold burnoutScoreRaw
  have t1 := ite_nonneg_le (c := (25:ℝ)) (by norm_num) h1
  have t2 := ite_nonneg_le (c := (20:ℝ)) (by norm_num) h2
  have t3 := ite_nonneg_le (c := (15:ℝ)) (by norm_num) h3
  have t4 := ite_nonneg_le (c := (20:ℝ)) (by norm_num) h4
  have t5 := ite_nonneg_le (c := (20:ℝ)) (by norm_num) h5
  have t6 := ite_nonneg_le (c := (15:ℝ)) (by norm_num) h6
  have t7 := ite_nonneg_le (c := (10:ℝ)) (by norm_num) h7
  have t8 := ite_nonneg_le (c := (10:ℝ)) (by norm_num) h8
  have t9 := ite_nonneg_le (c := (5:ℝ)) (by norm_num) h9
  linarith [t1, t2, t3, t4, t5, t6, t7, t8, t9]

/-- Witness for C7: the pointwise-dominance hypotheses hold reflexively on
one concrete input, giving the score comparison there. -/
theorem burnoutScore_monotone_witness :
    (ComputeBurnoutRisk fivePoints modelMid).score ≤
      (ComputeBurnoutRisk fivePoints modelMid).score :=
  burnoutScore_monotone fivePoints fivePoints modelMid modelMid
    (fun h => h) (fun h => h) (fun h => h) (fun h => h) (fun h => h)
    (fun h => h) (fun h => h) (fun h => h) (fun h => h)

theorem utf8Len_append (a b : GoStr) : utf8Len (a ++ b) = utf8Len a + utf8Len b := by
  simp [utf8Len]

theorem utf8Len_takeBytes (l : GoStr) : ∀ n, utf8Len (takeBytes n l) ≤ n := by
  induction l with
  | nil => intro n; simp [takeBytes, utf8Len]
  | cons c rest ih =>
      intro n
      unfold takeBytes
      by_cases h : charUtf8Size c ≤ n
      · rw [if_pos h]
        have hr := ih (n - charUtf8Size c)
        simp only [utf8Len, List.map_cons, List.sum_cons]
        simp only [utf8Len] at hr
        omega
      · rw [if_neg h]
        simp [utf8Len]

theorem buildUserNotesLoop_len (maxLen : ℤ) (pts : List TrackPoint) :
    ∀ b : GoStr, (utf8Len b : ℤ) ≤ maxLen →
      (utf8Len (buildUserNotesLoop maxLen pts b) : ℤ) ≤ maxLen := by
  induction pts with
  | nil => intro b hb; simpa [buildUserNotesLoop] using hb
  | cons p rest ih =>
      intro b hb
      unfold buildUserNotesLoop
      by_cases hskip : (goTrim p.llmText).isEmpty
      · rw [if_pos hskip]
        exact ih b hb
      · rw [if_neg hskip]
        by_cases hover : maxLen < (utf8Len b : ℤ) + (utf8Len (noteLine p b) : ℤ)
        · rw [if_pos hover]
          by_cases hrem : 0 < maxLen - (utf8Len b : ℤ)
          · rw [if_pos hrem]
            rw [utf8Len_append]
            have htake := utf8Len_takeBytes (noteLine p b) (maxLen - (utf8Len b : ℤ)).toNat
            have hnn : ((maxLen - (utf8Len b : ℤ)).toNat : ℤ) = maxLen - (utf8Len b : ℤ) :=
              Int.toNat_of_nonneg (le_of_lt hrem)
            omega
          · rw [if_neg hrem]
            exact hb
        · rw [if_neg hover]
          apply ih
          rw [utf8Len_append]
          omega

theorem buildUserNotesLoop_filter (maxLen : ℤ) (pts : List TrackPoint) :
    ∀ b : GoStr, buildUserNotesLoop maxLen pts b =
      buildUserNotesLoop maxLen (pts.filter (fun p => !(goTrim p.llmText).isEmpty)) b := by
  induction pts with
  | nil => intro b; rfl
  | cons p rest ih =>
      intro b
      by_cases hskip : (goTrim p.llmText).isEmpty
      · rw [show (p :: rest).filter (fun p => !(goTrim p.llmText).isEmpty) =
            rest.filter (fun p => !(goTrim p.llmText).isEmpty) by
              simp [List.filter, hskip]]
        conv_lhs => rw [buildUserNotesLoop]
        rw [if_pos hskip]
        exact ih b
      · rw [show (p :: rest).filter (fun p => !(goTrim p.llmText).isEmpty) =
            p :: rest.filter (fun p => !(goTrim p.llmText).isEmpty) by
              simp [List.filter, hskip]]
        conv_lhs => rw [buildUserNotesLoop]
        conv_rhs => rw [buildUserNotesLoop]
        rw [if_neg hskip, if_neg hskip]
        by_cases hover : maxLen < (utf8Len b : ℤ) + (utf8Len (noteLine p b) : ℤ)
        · rw [if_pos hover, if_pos hover]
        · rw [if_neg hover, if_neg hover]
          exact ih _

/-- C10: the note digest never exceeds `maxLen` bytes (for a non-negative
cap), is empty for a non-positive cap or an empty sample list, and samples
whose note trims to empty contribute nothing. -/
theorem buildUserNotes_spec (pts : List TrackPoint) (maxLen : ℤ) :
    (0 ≤ maxLen → (utf8Len (buildUserNotes pts maxLen) : ℤ) ≤ maxLen) ∧
    (maxLen ≤ 0 → buildUserNotes pts maxLen = []) ∧
    (pts.length = 0 → buildUserNotes pts maxLen = []) ∧
    buildUserNotes pts maxLen =
      buildUserNotes (pts.filter (fun p => !(goTrim p.llmText).isEmpty)) maxLen := by
  refine ⟨?_, ?_, ?_, ?_⟩
  · intro h0
    unfold buildUserNotes
    by_cases hc : pts.length = 0 ∨ maxLen ≤ 0
    · rw [if_pos hc]
      simpa [utf8Len] using h0
    · rw [if_neg hc]
      exact buildUserNotesLoop_len maxLen pts [] (by simp [utf8Len]; exact h0)
  · intro h0
    unfold buildUserNotes
    rw [if_pos (Or.inr h0)]
  · intro h0
    unfold buildUserNotes
    rw [if_pos (Or.inl h0)]
  · unfold buildUserNotes
    by_cases hm : maxLen ≤ 0
    · rw [if_pos (Or.inr hm), if_pos (Or.inr hm)]
    · by_cases hp : pts.length = 0
      · have hpe : pts = [] := List.length_eq_zero.mp hp
        subst hpe
        rfl
      · rw [if_neg (by push_neg; exact ⟨hp, lt_of_not_le hm⟩ : ¬(pts.length = 0 ∨ maxLen ≤ 0))]
        by_cases hf : (pts.filter (fun p => !(goTrim p.llmText).isEmpty)).length = 0
        · rw [if_pos (Or.inl hf)]
          rw [buildUserNotesLoop_filter, List.length_eq_zero.mp hf]
          rfl
        · rw [if_neg (by push_neg; exact ⟨hf, lt_of_not_le hm⟩ :
              ¬((pts.filter (fun p => !(goTrim p.llmText).isEmpty)).length = 0 ∨ maxLen ≤ 0))]
          exact buildUserNotesLoop_filter maxLen pts []

/-- Witness for C10: one noted sample under a 10-byte cap stays within the
cap. -/
theorem buildUserNotes_spec_witness :
    (utf8Len (buildUserNotes [notePoint] 10) : ℤ) ≤ 10 :=
  (buildUserNotes_spec [notePoint] 10).1 (by decide)

theorem Analyze_fresh_ok (a : AnalyzerDeps) (req : AnalyzeRequest) (pts : List TrackPoint)
    (hu : 0 < req.userID) (hr : a.repoConfigured = true) (hl : a.llmConfigured = true)
    (hp : a.trackPoints = Except.ok pts) (hlen : 2 ≤ pts.length) :
    ∃ resp : AnalyzeResponse, Analyze a req = Except.ok resp ∧
      resp.burnoutRisk = riskForPoints pts (ComputeProductivityModel pts) := by
  unfold Analyze
  rw [if_neg (by omega : ¬ req.userID ≤ 0), hr, hl, hp]
  simp only [Bool.not_true, Bool.and_false, Bool.false_eq_true, if_false]
  rw [if_neg (by omega : ¬ pts.length < 2)]
  exact ⟨_, rfl, rfl⟩

theorem Analyze_ok_of_points (a : AnalyzerDeps) (req : AnalyzeRequest) (pts : List TrackPoint)
    (hu : 0 < req.userID) (hr : a.repoConfigured = true)
    (hp : a.trackPoints = Except.ok pts) (hlen : 2 ≤ pts.length) :
    ∃ resp : AnalyzeResponse, Analyze a req = Except.ok resp := by
  unfold Analyze
  rw [if_neg (by omega : ¬ req.userID ≤ 0), hr, hp]
  cases hl : a.llmConfigured
  · simp only [Bool.not_false, Bool.and_true, Bool.true_eq_false, if_true]
    cases hc : a.cached
    · simp only
      rw [if_neg (by omega : ¬ pts.length < 2)]
      exact ⟨_, rfl⟩
    · exact ⟨_, rfl⟩
  · simp only [Bool.not_true, Bool.and_false, Bool.false_eq_true, if_false]
    rw [if_neg (by omega : ¬ pts.length < 2)]
    exact ⟨_, rfl⟩

/-- C1: below 5 samples the risk selection yields the fixed
insufficient-data record (score 0, the fixed level string, exactly one
fixed reason) irrespective of the sample values; the rule-based evaluation
runs only at 5 samples or more; and the full pipeline carries that record
into its response for any 2-to-4-sample load. -/
theorem insufficientData_spec :
    (∀ (pts : List TrackPoint) (model : ProductivityModel), pts.length < 5 →
      riskForPoints pts model = insufficientDataRisk) ∧
    (∀ (pts : List TrackPoint) (model : ProductivityModel), 5 ≤ pts.length →
      riskForPoints pts model = ComputeBurnoutRisk pts model) ∧
    insufficientDataRisk =
      { score := 0, level := "недостаточно данных".toList,
        reasons := ["Недостаточно данных для прогноза выгорания (нужно хотя бы 5 точек).".toList],
        predictionHorizonDays := 14 } ∧
    (∀ (a : AnalyzerDeps) (req : AnalyzeRequest) (pts : List TrackPoint),
      0 < req.userID → a.repoConfigured = true → a.llmConfigured = true →
      a.trackPoints = Except.ok pts → 2 ≤ pts.length → pts.length < 5 →
      ∃ resp : AnalyzeResponse, Analyze a req = Except.ok resp ∧
        resp.burnoutRisk = insufficientDataRisk) := by
  have hlow : ∀ (pts : List TrackPoint) (model : ProductivityModel), pts.length < 5 →
      riskForPoints pts model = insufficientDataRisk := by
    intro pts model h
    unfold riskForPoints
    rw [if_neg (by omega)]
  refine ⟨hlow, ?_, rfl, ?_⟩
  · intro pts model h
    unfold riskForPoints
    rw [if_pos h]
  · intro a req pts hu hr hl hp h2 h5
    obtain ⟨resp, hok, hrisk⟩ := Analyze_fresh_ok a req pts hu hr hl hp h2
    exact ⟨resp, hok, by rw [hrisk, hlow pts _ h5]⟩

/-- Witness for C1: three healthy samples flow through the pipeline and the
response carries the fixed insufficient-data record; five samples reach the
rule-based evaluation. -/
theorem insufficientData_spec_witness :
    riskForPoints threePoints modelMid = insufficientDataRisk ∧
    riskForPoints fivePoints modelMid = ComputeBurnoutRisk fivePoints modelMid ∧
    (∃ resp : AnalyzeResponse, Analyze depsThreePoints reqValid = Except.ok resp ∧
      resp.burnoutRisk = insufficientDataRisk) :=
  ⟨insufficientData_spec.1 threePoints modelMid (by decide),
   insufficientData_spec.2.1 fivePoints modelMid (by decide),
   insufficientData_spec.2.2.2 depsThreePoints reqValid threePoints (by decide) rfl rfl rfl
     (by decide) (by decide)⟩

/-- C9 counterexample: with a valid user, a configured repository and a
working store that holds exactly one (non-empty!) sample set, the pipeline
still fails, refuting the claim that any non-empty sample set yields a full
response. -/
theorem analyze_one_sample_error :
    depsOnePoint.trackPoints = Except.ok [samplePoint] ∧
    (0 : ℤ) < reqValid.userID ∧
    Analyze depsOnePoint reqValid =
      Except.error ("need at least 2 points for stable analytics".toList) := by
  refine ⟨rfl, by decide, ?_⟩
  rfl

/-- C9 (amended): the pipeline fails only when the user id is invalid, the
repository is missing or erroring, or fewer than 2 samples exist; with at
least 2 samples it returns a full response (an LLM failure degrades to a
fallback insight string, never to a pipeline error). -/
theorem analyze_error_conditions :
    (∀ (a : AnalyzerDeps) (req : AnalyzeRequest) (pts : List TrackPoint),
      0 < req.userID → a.repoConfigured = true → a.trackPoints = Except.ok pts →
      2 ≤ pts.length → ∃ resp : AnalyzeResponse, Analyze a req = Except.ok resp) ∧
    (∀ (a : AnalyzerDeps) (req : AnalyzeRequest) (e : GoStr), Analyze a req = Except.error e →
      req.userID ≤ 0 ∨ a.repoConfigured = false ∨
      (∃ msg, a.trackPoints = Except.error msg) ∨
      (∀ pts, a.trackPoints = Except.ok pts → pts.length < 2)) := by
  refine ⟨Analyze_ok_of_points, ?_⟩
  intro a req e herr
  by_cases hu : req.userID ≤ 0
  · exact Or.inl hu
  · cases hrepo : a.repoConfigured
    · exact Or.inr (Or.inl rfl)
    · rcases htp : a.trackPoints with msg | pts
      · exact Or.inr (Or.inr (Or.inl ⟨msg, rfl⟩))
      · by_cases hlen : pts.length < 2
        · refine Or.inr (Or.inr (Or.inr ?_))
          intro pts2 htp2
          injection htp2 with hEq
          rw [← hEq]
          exact hlen
        · obtain ⟨resp, hok⟩ :=
            Analyze_ok_of_points a req pts (by omega) hrepo htp (by omega)
          rw [hok] at herr
          cases herr

/-- Witness for C9 (amended): three stored samples produce a full response. -/
theorem analyze_error_conditions_witness :
    ∃ resp : AnalyzeResponse, Analyze depsThreePoints reqValid = Except.ok resp :=
  analyze_error_conditions.1 depsThreePoints reqValid threePoints (by decide) rfl rfl (by decide)

theorem validateInsightTail_true (t : GoStr) (p : AIPrompt)
    (hB : ∀ b ∈ (["<think>", "</think>", "analysis", "thoughts"].map String.toList),
      containsSub (toLowerGo t) b = false)
    (hA1 : (goTrim (extractBlock t ("Что делать завтра".toList) [])).isEmpty = false)
    (hA2 : (splitActions (extractBlock t ("Что делать завтра".toList) [])).length = 3)
    (hN : (goTrim p.userNotes).isEmpty = false → containsSub t ("Заметки:".toList) = true) :
    validateInsightTail t p = true := by
  unfold validateInsightTail
  rw [if_neg (by
    rw [List.any_eq_false.mpr (by intro b hb; rw [hB b hb]; decide)]
    decide)]
  rw [if_neg (by rw [hA1]; decide)]
  rw [if_neg (fun hne => hne hA2)]
  rw [if_neg (by
    rintro ⟨hnotes, hmark⟩
    rw [hN (by
      cases hx : (goTrim p.userNotes).isEmpty
      · rfl
      · rw [hx] at hnotes; exact absurd hnotes (by decide))] at hmark
    exact absurd hmark (by decide))]

theorem validateInsightRest_true (t : GoStr) (p : AIPrompt)
    (hS : 5 ≤ p.numPoints ∧ 5 ≤ obsDaysOf p →
      containsSub (toLowerGo t) ("данных мало".toList) = false ∧
      containsSub (toLowerGo t) ("вывод предварител".toList) = false)
    (hB : ∀ b ∈ (["<think>", "</think>", "analysis", "thoughts"].map String.toList),
      containsSub (toLowerGo t) b = false)
    (hA1 : (goTrim (extractBlock t ("Что делать завтра".toList) [])).isEmpty = false)
    (hA2 : (splitActions (extractBlock t ("Что делать завтра".toList) [])).length = 3)
    (hN : (goTrim p.userNotes).isEmpty = false → containsSub t ("Заметки:".toList) = true) :
    validateInsightRest t p = true := by
  unfold validateInsightRest
  by_cases hc : 5 ≤ p.numPoints ∧ 5 ≤ obsDaysOf p
  · rw [if_pos hc]
    obtain ⟨hs1, hs2⟩ := hS hc
    rw [if_neg (by rw [hs1, hs2]; decide)]
    exact validateInsightTail_true t p hB hA1 hA2 hN
  · rw [if_neg hc]
    exact validateInsightTail_true t p hB hA1 hA2 hN

/-- C3 counterexample: a text with all required headers on their own lines,
exactly 3 action statements, no disclaimer, and a determinate risk level
still fails `validateInsight` when user notes were supplied and the text
lacks the notes marker — the claimed conditions are not sufficient. -/
theorem validateInsight_claim_counterexample :
    validateInsight insightTextValid promptWithNotes = false ∧
    (requiredHeaders.all (fun h =>
      containsSub (goTrim insightTextValid) ('\n' :: (h ++ ['\n'])) ||
      (h ++ ['\n']).isPrefixOf (goTrim insightTextValid))) = true ∧
    (splitActions (extractBlock (goTrim insightTextValid)
      ("Что делать завтра".toList) [])).length = 3 ∧
    containsSub (goTrim insightTextValid) disclaimerSentence = false ∧
    promptWithNotes.burnoutLevel = "low".toList := by
  refine ⟨?_, ?_, ?_, ?_, ?_⟩ <;> decide

/-- C3 (amended): a text missing any required header (on its own line in
the trimmed text) always fails validation; and a text with all headers,
exactly 3 actions in a non-empty action block, the disclaimer present
exactly when the risk level is undetermined, no insufficient-data phrasing
when the counts reach 5, no banned reasoning/medical tokens, and the notes
marker whenever user notes are present, always passes. -/
theorem validateInsight_spec :
    (∀ (t : GoStr) (p : AIPrompt) (h : GoStr), h ∈ requiredHeaders →
      (containsSub (goTrim t) ('\n' :: (h ++ ['\n'])) ||
       (h ++ ['\n']).isPrefixOf (goTrim t)) = false →
      validateInsight t p = false) ∧
    (∀ (t : GoStr) (p : AIPrompt),
      (goTrim t).isEmpty = false →
      (requiredHeaders.all (fun h =>
        containsSub (goTrim t) ('\n' :: (h ++ ['\n'])) ||
        (h ++ ['\n']).isPrefixOf (goTrim t))) = true →
      (containsSub (goTrim t) disclaimerSentence = true ↔
        (p.burnoutLevel = "unknown".toList ∨ p.burnoutLevel = "недостаточно данных".toList)) →
      (5 ≤ p.numPoints ∧ 5 ≤ obsDaysOf p →
        containsSub (toLowerGo (goTrim t)) ("данных мало".toList) = false ∧
        containsSub (toLowerGo (goTrim t)) ("вывод предварител".toList) = false) →
      (∀ b ∈ (["<think>", "</think>", "analysis", "thoughts"].map String.toList),
        containsSub (toLowerGo (goTrim t)) b = false) →
      (goTrim (extractBlock (goTrim t) ("Что делать завтра".toList) [])).isEmpty = false →
      (splitActions (extractBlock (goTrim t) ("Что делать завтра".toList) [])).length = 3 →
      ((goTrim p.userNotes).isEmpty = false →
        containsSub (goTrim t) ("Заметки:".toList) = true) →
      validateInsight t p = true) := by
  constructor
  · intro t p h hmem hmiss
    unfold validateInsight
    cases hE : (goTrim t).isEmpty
    · cases hAll : requiredHeaders.all (fun h =>
        containsSub (goTrim t) ('\n' :: (h ++ ['\n'])) ||
        (h ++ ['\n']).isPrefixOf (goTrim t))
      · simp [hAll]
      · have := List.all_eq_true.mp hAll h hmem
        rw [hmiss] at this
        exact absurd this (by decide)
    · simp [hE]
  · intro t p h0 hH hD hS hB hA1 hA2 hN
    unfold validateInsight
    rw [if_neg (by rw [h0]; decide), if_neg (by rw [hH]; decide)]
    by_cases hU : p.burnoutLevel = "unknown".toList ∨ p.burnoutLevel = "недостаточно данных".toList
    · rw [if_pos hU, if_neg (by rw [hD.mpr hU]; decide)]
      exact validateInsightRest_true (goTrim t) p hS hB hA1 hA2 hN
    · rw [if_neg hU, if_neg (by
        cases hcon : containsSub (goTrim t) disclaimerSentence
        · decide
        · exact absurd (hD.mp hcon) hU)]
      exact validateInsightRest_true (goTrim t) p hS hB hA1 hA2 hN

/-- Witness for C3 (amended): a text without the energy header fails, and a
fully conforming text with a determinate level passes. -/
theorem validateInsight_spec_witness :
    validateInsight ("Привет.".toList) promptDeterminate = false ∧
    validateInsight insightTextValid promptDeterminate = true := by
  constructor
  · exact validateInsight_spec.1 ("Привет.".toList) promptDeterminate
      ("Энергия".toList) (by decide) (by decide)
  · exact validateInsight_spec.2 insightTextValid promptDeterminate
      (by decide) (by decide) (by decide) (by decide) (by decide) (by decide)
      (by decide) (by decide)

theorem mergeContinuation_error (p : AIPrompt) (t f e : GoStr) :
    mergeContinuation p t f (Except.error e) = t := by
  unfold mergeContinuation
  split <;> rfl

theorem repairStage_best_effort (p : AIPrompt) (t : GoStr) (o3 : ChatOutcome)
    (hrep : ∀ raw3 fin3, o3 = Except.ok (raw3, fin3) →
      validateInsight (sanitizeInsight (toPlainText raw3) p) p = false)
    (hne : (goTrim t).isEmpty = false) :
    repairStage p t o3 = Except.ok t := by
  have hfb : callInsightFallback t = Except.ok t := by
    unfold callInsightFallback
    rw [if_neg (by rw [hne]; decide)]
  unfold repairStage
  by_cases hv : validateInsight t p = true
  · rw [if_pos hv]
    exact hfb
  · rw [if_neg hv]
    cases o3 with
    | error e => exact hfb
    | ok r3 =>
        simp only
        rw [if_neg (by rw [hrep r3.1 r3.2 rfl]; decide)]
        exact hfb

/-- C4: the orchestration returns a validated repair output when one is
obtained; otherwise it returns the accumulated text whenever that is
non-empty after trimming (even though it fails validation); it fails with
the explicit empty-content error when no non-empty text was ever obtained;
a transport error on the first call propagates immediately; and transport
errors on the continuation and repair calls never cause failure when the
first call produced non-empty text. -/
theorem callInsight_spec :
    (∀ (p : AIPrompt) (o2 o3 : ChatOutcome) (e : GoStr),
      CallInsight false p (Except.error e) o2 o3 = Except.error e) ∧
    (∀ (p : AIPrompt) (raw1 fin1 : GoStr) (o2 : ChatOutcome) (raw3 fin3 : GoStr),
      validateInsight (mergeContinuation p (sanitizeInsight (toPlainText raw1) p) fin1 o2) p =
        false →
      validateInsight (sanitizeInsight (toPlainText raw3) p) p = true →
      CallInsight false p (Except.ok (raw1, fin1)) o2 (Except.ok (raw3, fin3)) =
        Except.ok (sanitizeInsight (toPlainText raw3) p)) ∧
    (∀ (p : AIPrompt) (raw1 fin1 : GoStr) (o2 o3 : ChatOutcome),
      (∀ raw3 fin3, o3 = Except.ok (raw3, fin3) →
        validateInsight (sanitizeInsight (toPlainText raw3) p) p = false) →
      (goTrim (mergeContinuation p (sanitizeInsight (toPlainText raw1) p) fin1 o2)).isEmpty =
        false →
      CallInsight false p (Except.ok (raw1, fin1)) o2 o3 =
        Except.ok (mergeContinuation p (sanitizeInsight (toPlainText raw1) p) fin1 o2)) ∧
    (∀ (p : AIPrompt) (raw1 fin1 : GoStr) (o2 o3 : ChatOutcome),
      (goTrim (mergeContinuation p (sanitizeInsight (toPlainText raw1) p) fin1 o2)).isEmpty =
        true →
      (∀ raw3 fin3, o3 = Except.ok (raw3, fin3) →
        validateInsight (sanitizeInsight (toPlainText raw3) p) p = false) →
      CallInsight false p (Except.ok (raw1, fin1)) o2 o3 = Except.error emptyContentErr) ∧
    (∀ (p : AIPrompt) (raw1 fin1 e2 e3 : GoStr),
      (goTrim (sanitizeInsight (toPlainText raw1) p)).isEmpty = false →
      CallInsight false p (Except.ok (raw1, fin1)) (Except.error e2) (Except.error e3) =
        Except.ok (sanitizeInsight (toPlainText raw1) p)) := by
  have hstep : ∀ (p : AIPrompt) (raw1 fin1 : GoStr) (o2 o3 : ChatOutcome),
      CallInsight false p (Except.ok (raw1, fin1)) o2 o3 =
        repairStage p (mergeContinuation p (sanitizeInsight (toPlainText raw1) p) fin1 o2) o3 :=
    fun p raw1 fin1 o2 o3 => rfl
  refine ⟨fun p o2 o3 e => rfl, ?_, ?_, ?_, ?_⟩
  · intro p raw1 fin1 o2 raw3 fin3 hval1 hval3
    rw [hstep]
    unfold repairStage
    rw [if_neg (by rw [hval1]; decide)]
    simp only
    rw [if_pos hval3]
  · intro p raw1 fin1 o2 o3 hrep hne
    rw [hstep]
    exact repairStage_best_effort p _ o3 hrep hne
  · intro p raw1 fin1 o2 o3 hemp hrep
    rw [hstep]
    have hempty : goTrim (mergeContinuation p (sanitizeInsight (toPlainText raw1) p) fin1 o2) =
        [] := List.isEmpty_iff.mp hemp
    have hfb : callInsightFallback
        (mergeContinuation p (sanitizeInsight (toPlainText raw1) p) fin1 o2) =
        Except.error emptyContentErr := by
      unfold callInsightFallback
      rw [if_pos (by rw [hempty]; rfl)]
    unfold repairStage
    rw [if_neg (by
      rw [validateInsight_of_trim_empty _ p hempty]
      decide)]
    cases o3 with
    | error e => exact hfb
    | ok r3 =>
        simp only
        rw [if_neg (by rw [hrep r3.1 r3.2 rfl]; decide)]
        exact hfb
  · intro p raw1 fin1 e2 e3 hne
    rw [hstep, mergeContinuation_error]
    exact repairStage_best_effort p _ (Except.error e3)
      (fun raw3 fin3 h => Except.noConfusion h) hne

set_option maxRecDepth 40000 in
set_option maxHeartbeats 2000000 in
/-- Witness for C4: a transport error on the first call propagates; a
validating repair output is returned; with failing or erroring repair the
non-empty first text is returned; an empty first text with no usable repair
yields the explicit error; and continuation/repair transport errors do not
fail a run whose first call produced text. -/
theorem callInsight_spec_witness :
    CallInsight false promptDeterminate (Except.error ("net".toList))
      (Except.error ("x".toList)) (Except.error ("x".toList)) =
      Except.error ("net".toList) ∧
    CallInsight false promptDeterminate (Except.ok (rawPlain, "stop".toList))
      (Except.error ("x".toList)) (Except.ok (insightTextValid, "stop".toList)) =
      Except.ok (sanitizeInsight (toPlainText insightTextValid) promptDeterminate) ∧
    CallInsight false promptDeterminate (Except.ok (rawPlain, "stop".toList))
      (Except.error ("x".toList)) (Except.error ("x".toList)) =
      Except.ok (mergeContinuation promptDeterminate
        (sanitizeInsight (toPlainText rawPlain) promptDeterminate) ("stop".toList)
        (Except.error ("x".toList))) ∧
    CallInsight false promptDeterminate (Except.ok (([] : GoStr), "stop".toList))
      (Except.error ("x".toList)) (Except.error ("x".toList)) =
      Except.error emptyContentErr ∧
    CallInsight false promptDeterminate (Except.ok (rawPlain, "stop".toList))
      (Except.error ("x".toList)) (Except.error ("x".toList)) =
      Except.ok (sanitizeInsight (toPlainText rawPlain) promptDeterminate) := by
  refine ⟨?_, ?_, ?_, ?_, ?_⟩
  · exact callInsight_spec.1 promptDeterminate _ _ ("net".toList)
  · exact callInsight_spec.2.1 promptDeterminate rawPlain ("stop".toList)
      (Except.error ("x".toList)) insightTextValid ("stop".toList) (by decide) (by decide)
  · exact callInsight_spec.2.2.1 promptDeterminate rawPlain ("stop".toList)
      (Except.error ("x".toList)) (Except.error ("x".toList))
      (fun raw3 fin3 h => Except.noConfusion h) (by decide)
  · exact callInsight_spec.2.2.2.1 promptDeterminate [] ("stop".toList)
      (Except.error ("x".toList)) (Except.error ("x".toList)) (by decide)
      (fun raw3 fin3 h => Except.noConfusion h)
  · exact callInsight_spec.2.2.2.2 promptDeterminate rawPlain ("stop".toList)
      ("x".toList) ("x".toList) (by decide)
